import Mathlib

/-!
# Verification of the yomitaisen matching + session-lifecycle engine

Shallow embedding of the core game logic of the yomitaisen backend
(`src/backend/src/game/...`) together with proofs of the specified
properties.  Rust mutation is modelled by explicit state passing:
an `&mut self` method returning `T` becomes a Lean function returning
`T × State`.  The `DashMap` registries are modelled as association
lists with lookup/erase/insert helpers whose semantics match map
lookup, removal and overwriting insertion.  tokio broadcast channels
are modelled by opaque channel identifiers; a `broadcast` emits the
message once per channel into an explicit output list.
-/

/-- A Japanese word with kanji and reading (`game/core/word.rs`). -/
structure Word where
  kanji : String
  reading : String
deriving DecidableEq, Repr

/-- A single round in the game (`game/core/session.rs`, `Round`). -/
structure Round where
  number : Nat
  word : Word
  player1_skipped : Bool
  player2_skipped : Bool
deriving DecidableEq, Repr

/-- `Round::check_answer`: the answer must equal the word's reading exactly. -/
def Round.check_answer (r : Round) (answer : String) : Bool :=
  answer == r.word.reading

/-- Result of a round ending (`RoundOutcome`). -/
structure RoundOutcome where
  winner : Option String
  correct_reading : String
deriving DecidableEq, Repr

/-- Result of a player attempting to skip (`SkipResult`). -/
inductive SkipResult where
  | AlreadySkipped
  | WaitingForOpponent
  | BothSkipped (outcome : RoundOutcome)
deriving DecidableEq, Repr

/-- `WINS_NEEDED` constant from `game/core/session.rs`. -/
def WINS_NEEDED : Nat := 15

/-- A game session between two players, pure logic (`GameSession`). -/
structure GameSession where
  player1 : String
  player2 : String
  scores : Nat × Nat
  current_round : Option Round
deriving DecidableEq, Repr

/-- `GameSession::new`. -/
def GameSession.new (player1 player2 : String) : GameSession :=
  { player1 := player1, player2 := player2, scores := (0, 0), current_round := none }

/-- `GameSession::record_win`: the first matching arm wins, unknown ids are ignored. -/
def GameSession.record_win (s : GameSession) (player_id : String) : GameSession :=
  if player_id = s.player1 then { s with scores := (s.scores.1 + 1, s.scores.2) }
  else if player_id = s.player2 then { s with scores := (s.scores.1, s.scores.2 + 1) }
  else s

/-- `GameSession::game_winner`: first score to reach `WINS_NEEDED`. -/
def GameSession.game_winner (s : GameSession) : Option String :=
  if s.scores.1 ≥ WINS_NEEDED then some s.player1
  else if s.scores.2 ≥ WINS_NEEDED then some s.player2
  else none

/-- `GameSession::has_player`. -/
def GameSession.has_player (s : GameSession) (player_id : String) : Bool :=
  s.player1 == player_id || s.player2 == player_id

/-- `GameSession::opponent_of`. -/
def GameSession.opponent_of (s : GameSession) (player_id : String) : Option String :=
  if player_id = s.player1 then some s.player2
  else if player_id = s.player2 then some s.player1
  else none

/-- `GameSession::start_round`: installs a fresh round with cleared skip flags
(the source has no guard against an already-active round). -/
def GameSession.start_round (s : GameSession) (round_number : Nat) (word : Word) : GameSession :=
  { s with current_round := some (Round.mk round_number word false false) }

/-- `GameSession::submit_answer`: `none` (state unchanged) when no round is active
or the answer is wrong; on a correct answer the round is cleared and the outcome
carries the submitting player as winner. -/
def GameSession.submit_answer (s : GameSession) (player_id answer : String) :
    Option RoundOutcome × GameSession :=
  match s.current_round with
  | none => (none, s)
  | some round =>
    if round.check_answer answer then
      (some (RoundOutcome.mk (some player_id) round.word.reading),
       { s with current_round := none })
    else
      (none, s)

/-- `GameSession::timeout_round`: takes the current round if any, resolving it
with no winner. -/
def GameSession.timeout_round (s : GameSession) : Option RoundOutcome × GameSession :=
  match s.current_round with
  | none => (none, s)
  | some round =>
    (some (RoundOutcome.mk none round.word.reading),
     { s with current_round := none })

/-- `GameSession::record_skip`: marks the caller's skip flag; reports
`AlreadySkipped` when the flag was already set, `WaitingForOpponent` when the
opponent has not skipped, and `BothSkipped` (clearing the round) when both
flags are now set.  Unknown players and absent rounds give `none`. -/
def GameSession.record_skip (s : GameSession) (player_id : String) :
    Option SkipResult × GameSession :=
  match s.current_round with
  | none => (none, s)
  | some round =>
    if player_id = s.player1 then
      let already := round.player1_skipped
      let opponent_skipped := round.player2_skipped
      if already then
        (some SkipResult.AlreadySkipped,
         { s with current_round := some ({ round with player1_skipped := true }) })
      else if opponent_skipped then
        (some (SkipResult.BothSkipped (RoundOutcome.mk none round.word.reading)),
         { s with current_round := none })
      else
        (some SkipResult.WaitingForOpponent,
         { s with current_round := some ({ round with player1_skipped := true }) })
    else if player_id = s.player2 then
      let already := round.player2_skipped
      let opponent_skipped := round.player1_skipped
      if already then
        (some SkipResult.AlreadySkipped,
         { s with current_round := some ({ round with player2_skipped := true }) })
      else if opponent_skipped then
        (some (SkipResult.BothSkipped (RoundOutcome.mk none round.word.reading)),
         { s with current_round := none })
      else
        (some SkipResult.WaitingForOpponent,
         { s with current_round := some ({ round with player2_skipped := true }) })
    else
      (none, s)

/-- `GameSession::current_round_number`. -/
def GameSession.current_round_number (s : GameSession) : Option Nat :=
  s.current_round.map (fun r => r.number)

/-! ## Matchmaking lobby (`game/matchmaking.rs`) -/

/-- Result of attempting to join matchmaking (`MatchOutcome`). -/
inductive MatchOutcome where
  | Waiting
  | Matched (opponent_id : String)
deriving DecidableEq, Repr

/-- The lobby's single waiting-player slot.  The Rust `Mutex<Option<String>>`
is modelled as the guarded value itself; the lock only serializes access. -/
abbrev Lobby := Option String

/-- `Lobby::try_match`: take the waiting occupant if any, otherwise occupy. -/
def Lobby.try_match (slot : Lobby) (user_id : String) : MatchOutcome × Lobby :=
  match slot with
  | none => (MatchOutcome.Waiting, some user_id)
  | some opponent_id => (MatchOutcome.Matched opponent_id, none)

/-- `Lobby::remove_waiting`: clear the slot only if it holds exactly this player. -/
def Lobby.remove_waiting (slot : Lobby) (user_id : String) : Lobby :=
  if slot = some user_id then none else slot

/-- Outcomes of a sequence of `try_match` calls, threading the slot state. -/
def Lobby.run (slot : Lobby) : List String → List MatchOutcome
  | [] => []
  | u :: us => (Lobby.try_match slot u).1 :: Lobby.run (Lobby.try_match slot u).2 us

/-- Slot state after a sequence of `try_match` calls. -/
def Lobby.runState (slot : Lobby) : List String → Lobby
  | [] => slot
  | u :: us => Lobby.runState (Lobby.try_match slot u).2 us

/-! ## Association-list model of the `DashMap` registries -/

/-- Map lookup (`DashMap::get`). -/
def alookup {α : Type} (k : String) : List (String × α) → Option α
  | [] => none
  | (k1, v) :: rest => if k1 = k then some v else alookup k rest

/-- Map removal (`DashMap::remove`'s effect on the map; removal of an absent
key is a no-op, matching the `Option` result of `remove`). -/
def aerase {α : Type} (k : String) : List (String × α) → List (String × α)
  | [] => []
  | (k1, v) :: rest => if k1 = k then aerase k rest else (k1, v) :: aerase k rest

/-- Map insertion with overwrite (`DashMap::insert`). -/
def ainsert {α : Type} (k : String) (v : α) (l : List (String × α)) :
    List (String × α) :=
  (k, v) :: aerase k l

/-- In-place value update (`DashMap::get_mut` followed by mutation): leaves the
map untouched when the key is absent. -/
def aupdate {α : Type} (k : String) (v : α) : List (String × α) → List (String × α)
  | [] => []
  | (k1, v1) :: rest => if k1 = k then (k1, v) :: rest else (k1, v1) :: aupdate k v rest

/-! ## Messages and channels -/

/-- Channels (`tokio::sync::broadcast::Sender`) are modelled as opaque ids;
sending is recorded in explicit output lists. -/
abbrev Chan := Nat

/-- `ServerMessage` (`game/core/messages.rs`).  The `RoundStart` variant carries
the alternate-readings list attached by the later engine snapshot
(`engine/active_game.rs`); the older snapshot sends it without readings. -/
inductive ServerMessage where
  | Waiting
  | GameCreated (game_id : String)
  | WaitingForOpponent
  | OpponentJoined (opponent_name : String)
  | GameFull
  | GameNotFound
  | GameStart (opponent : String)
  | RoundStart (kanji : String) (round : Nat) (readings : List String)
  | RoundResult (winner : Option String) (correct_reading : String)
  | WrongAnswer
  | SkipWaiting
  | RematchWaiting
  | OpponentDisconnected
  | GameEnd (winner : Option String)
  | Error (message : String)
deriving DecidableEq, Repr

/-- An active game: pure session plus both players' outbound channels
(`engine/active_game.rs`, `ActiveGame`). -/
structure ActiveGame where
  session : GameSession
  player1_tx : Chan
  player2_tx : Chan
deriving DecidableEq, Repr

/-- `ActiveGame::broadcast`: one send on each player's channel. -/
def ActiveGame.broadcast (g : ActiveGame) (msg : ServerMessage) :
    List (Chan × ServerMessage) :=
  [(g.player1_tx, msg), (g.player2_tx, msg)]

/-! ## Game registry (`engine/registry.rs`) -/

/-- Info returned when a player is removed due to disconnect (`DisconnectInfo`). -/
structure DisconnectInfo where
  game : ActiveGame
  opponent_id : String
deriving DecidableEq, Repr

/-- The registry's two maps.  The word repository and the timeout duration are
external collaborators/configuration and are passed as explicit parameters to
the operations that need them. -/
structure GameRegistry where
  games : List (String × ActiveGame)
  player_games : List (String × String)
deriving DecidableEq, Repr

/-- `GameRegistry::broadcast_to_game`: player to game to both channels; a no-op
when either lookup misses. -/
def GameRegistry.broadcast_to_game (r : GameRegistry) (user_id : String)
    (msg : ServerMessage) : List (Chan × ServerMessage) :=
  match alookup user_id r.player_games with
  | none => []
  | some game_id =>
    match alookup game_id r.games with
    | none => []
    | some game => game.broadcast msg

/-- `GameRegistry::cleanup_game`: remove the game and both its players'
mappings. -/
def GameRegistry.cleanup_game (r : GameRegistry) (game_id : String) : GameRegistry :=
  match alookup game_id r.games with
  | none => r
  | some game =>
    { games := aerase game_id r.games,
      player_games := aerase game.session.player2 (aerase game.session.player1 r.player_games) }

/-- `GameRegistry::remove_player_from_game`: each `?` early return leaves the
removals performed so far in place, exactly as in the source. -/
def GameRegistry.remove_player_from_game (r : GameRegistry) (user_id : String) :
    Option DisconnectInfo × GameRegistry :=
  match alookup user_id r.player_games with
  | none => (none, r)
  | some game_id =>
    let r1 : GameRegistry := { r with player_games := aerase user_id r.player_games }
    match alookup game_id r1.games with
    | none => (none, r1)
    | some game =>
      let r2 : GameRegistry := { r1 with games := aerase game_id r1.games }
      match game.session.opponent_of user_id with
      | none => (none, r2)
      | some opponent_id =>
        (some (DisconnectInfo.mk game opponent_id),
         { r2 with player_games := aerase opponent_id r2.player_games })

/-- Result of a correct answer submission (`AnswerResult`). -/
structure AnswerResult where
  round_result : ServerMessage
  game_winner : Option String
  round_number : Nat
deriving DecidableEq, Repr

/-- `GameRegistry::submit_answer`.  Note the source computes the reported
`round_number` as `scores.0 + scores.1` after recording the win, not from the
resolved round's ordinal. -/
def GameRegistry.submit_answer (r : GameRegistry) (user_id answer : String) :
    Option AnswerResult × GameRegistry :=
  match alookup user_id r.player_games with
  | none => (none, r)
  | some game_id =>
    match alookup game_id r.games with
    | none => (none, r)
    | some game =>
      match game.session.submit_answer user_id answer with
      | (none, s1) =>
        (none, { r with games := aupdate game_id ({ game with session := s1 }) r.games })
      | (some outcome, s1) =>
        let s2 := match outcome.winner with
          | some winner => s1.record_win winner
          | none => s1
        let round_number := s2.scores.1 + s2.scores.2
        (some (AnswerResult.mk
            (ServerMessage.RoundResult outcome.winner outcome.correct_reading)
            s2.game_winner round_number),
         { r with games := aupdate game_id ({ game with session := s2 }) r.games })

/-! ## Round timeout scheduler (`engine/active_game.rs`) -/

/-- `MAX_ROUNDS` constant. -/
def MAX_ROUNDS : Nat := 30

/-- Result of one engine step: new registry state, messages sent, and the
`(game_id, round_number)` timeouts spawned. -/
structure StepResult where
  state : GameRegistry
  sent : List (Chan × ServerMessage)
  scheduled : List (String × Nat)
deriving DecidableEq, Repr

/-- `continue_or_end_game`.  The word source's `get_random` result and the
`get_readings_for_kanji` result are I/O collaborator outputs passed as
parameters.  The cleanup hook is threaded through but never invoked by the
source (cleanup happens on disconnect, to allow rematch). -/
def continue_or_end_game (st : GameRegistry) (game_id : String)
    (game_winner : Option String) (round_number : Nat)
    (next_word : Option Word) (readings : List String) : StepResult :=
  match game_winner with
  | some winner =>
    match alookup game_id st.games with
    | some game =>
      StepResult.mk st (game.broadcast (ServerMessage.GameEnd (some winner))) []
    | none => StepResult.mk st [] []
  | none =>
    if round_number ≥ MAX_ROUNDS then
      match alookup game_id st.games with
      | some game =>
        let winner :=
          if game.session.scores.1 > game.session.scores.2 then some game.session.player1
          else if game.session.scores.1 < game.session.scores.2 then some game.session.player2
          else none
        StepResult.mk st (game.broadcast (ServerMessage.GameEnd winner)) []
      | none => StepResult.mk st [] []
    else
      match next_word with
      | none => StepResult.mk st [] []
      | some word =>
        match alookup game_id st.games with
        | some game =>
          let game1 := { game with session := game.session.start_round (round_number + 1) word }
          StepResult.mk ({ st with games := aupdate game_id game1 st.games })
            (game.broadcast (ServerMessage.RoundStart word.kanji (round_number + 1) readings))
            [(game_id, round_number + 1)]
        | none => StepResult.mk st [] [(game_id, round_number + 1)]

/-- The stale-timeout guard of `handle_round_timeout`: the timeout is discarded
when the game is gone or its current round number is not the scheduled one. -/
def timeout_is_stale (st : GameRegistry) (game_id : String) (round_number : Nat) : Bool :=
  match alookup game_id st.games with
  | none => true
  | some game => game.session.current_round_number != some round_number

/-- `handle_round_timeout`: fired timeout callback. -/
def handle_round_timeout (st : GameRegistry) (game_id : String) (round_number : Nat)
    (next_word : Option Word) (readings : List String) : StepResult :=
  match alookup game_id st.games with
  | none => StepResult.mk st [] []
  | some game =>
    if game.session.current_round_number ≠ some round_number then StepResult.mk st [] []
    else
      match game.session.timeout_round with
      | (none, _) => StepResult.mk st [] []
      | (some outcome, s1) =>
        let game1 := { game with session := s1 }
        let st1 : GameRegistry := { st with games := aupdate game_id game1 st.games }
        let res := continue_or_end_game st1 game_id s1.game_winner round_number
          next_word readings
        StepResult.mk res.state
          (game1.broadcast (ServerMessage.RoundResult outcome.winner outcome.correct_reading)
            ++ res.sent)
          res.scheduled

/-! ## Matchmaking state (`game/matchmaking/state.rs`) -/

/-- Internal result after matching + channel lookup (`JoinResult`). -/
inductive JoinResult where
  | Waiting
  | Matched (opponent_id : String) (opponent_tx : Chan) (game_id : String)
deriving DecidableEq, Repr

/-- `MatchmakingState`: lobby, per-player channels and the two registry maps.
This snapshot's session type omits scores and skip flags; the richer
`GameSession` is used here, which agrees on the player-identity operations
the matchmaking code relies on. -/
structure MatchmakingState where
  lobby : Lobby
  player_channels : List (String × Chan)
  games : List (String × ActiveGame)
  player_games : List (String × String)
deriving DecidableEq, Repr

/-- `MatchmakingState::try_join`.  The fresh uuid for the created game is the
`new_game_id` parameter.  The result `none` models the panic of the
`.expect("opponent should have registered channel")` lookup: the source
asserts presence of the matched opponent's channel instead of handling its
absence. -/
def MatchmakingState.try_join (st : MatchmakingState) (user_id : String) (tx : Chan)
    (new_game_id : String) : Option (JoinResult × MatchmakingState) :=
  let st1 : MatchmakingState :=
    { st with player_channels := ainsert user_id tx st.player_channels }
  match Lobby.try_match st1.lobby user_id with
  | (MatchOutcome.Waiting, slot1) =>
    some (JoinResult.Waiting, { st1 with lobby := slot1 })
  | (MatchOutcome.Matched opponent_id, slot1) =>
    match alookup opponent_id st1.player_channels with
    | none => none
    | some opponent_tx =>
      let game := ActiveGame.mk (GameSession.new opponent_id user_id) opponent_tx tx
      some (JoinResult.Matched opponent_id opponent_tx new_game_id,
        { st1 with
          lobby := slot1,
          games := ainsert new_game_id game st1.games,
          player_games :=
            ainsert user_id new_game_id (ainsert opponent_id new_game_id st1.player_games) })

/-- `MatchmakingState::handle_disconnect`: lobby and channel cleanup, then
game/opponent cleanup with a notification send when the opponent's channel is
still present.  Every registry lookup miss is an early return. -/
def MatchmakingState.handle_disconnect (st : MatchmakingState) (user_id : String) :
    MatchmakingState × List (Chan × ServerMessage) :=
  let st1 : MatchmakingState :=
    { st with
      lobby := Lobby.remove_waiting st.lobby user_id,
      player_channels := aerase user_id st.player_channels }
  match alookup user_id st1.player_games with
  | none => (st1, [])
  | some game_id =>
    let st2 : MatchmakingState := { st1 with player_games := aerase user_id st1.player_games }
    match alookup game_id st2.games with
    | none => (st2, [])
    | some game =>
      let st3 : MatchmakingState := { st2 with games := aerase game_id st2.games }
      match game.session.opponent_of user_id with
      | none => (st3, [])
      | some opponent_id =>
        let st4 : MatchmakingState :=
          { st3 with player_games := aerase opponent_id st3.player_games }
        match alookup opponent_id st4.player_channels with
        | none => (st4, [])
        | some opponent_tx => (st4, [(opponent_tx, ServerMessage.OpponentDisconnected)])

/-! ## Ephemeral state (`game/ephemeral/state.rs`) -/

/-- `EphemeralPlayer` (generated uuid plus display name). -/
structure EphemeralPlayer where
  id : String
  display_name : String
deriving DecidableEq, Repr

/-- A created-but-not-yet-joined invite (`PendingGame`); the creation instant
is modelled as an abstract tick. -/
structure PendingGame where
  game_id : String
  host : EphemeralPlayer
  host_tx : Chan
  created_at : Nat
deriving DecidableEq, Repr

/-- Result of joining an ephemeral game (`JoinedGame`). -/
structure JoinedGame where
  game_id : String
  host_name : String
  guest_name : String
  host_tx : Chan
deriving DecidableEq, Repr

/-- `EphemeralState`: shared registry plus the pending invites. -/
structure EphemeralState where
  registry : GameRegistry
  pending_games : List (String × PendingGame)
deriving DecidableEq, Repr

/-- `EphemeralState::join_game`: converts a pending invite into an active game,
discriminating a guest name equal to the host's with a `" (2)"` suffix, and
inserts the game plus both display-name mappings. -/
def EphemeralState.join_game (st : EphemeralState) (game_id player_name : String)
    (tx : Chan) : Option JoinedGame × EphemeralState :=
  match alookup game_id st.pending_games with
  | none => (none, st)
  | some pending =>
    let host_name := pending.host.display_name
    let guest_name := if player_name = host_name then player_name ++ " (2)" else player_name
    let game := ActiveGame.mk (GameSession.new host_name guest_name) pending.host_tx tx
    let registry1 : GameRegistry := GameRegistry.mk
      (ainsert game_id game st.registry.games)
      (ainsert guest_name game_id (ainsert host_name game_id st.registry.player_games))
    (some (JoinedGame.mk game_id host_name guest_name pending.host_tx),
     { pending_games := aerase game_id st.pending_games, registry := registry1 })

/-! ## Registry consistency invariants (claim C8) -/

/-- The consistency property of the spec: every `(player, game_id)` pair in
`player_games` points at an existing game containing the player, both of whose
players map back to that same game id. -/
def registry_consistent (games : List (String × ActiveGame))
    (pg : List (String × String)) : Prop :=
  ∀ p g, alookup p pg = some g →
    ∃ game, alookup g games = some game ∧ game.session.has_player p = true ∧
      alookup game.session.player1 pg = some g ∧ alookup game.session.player2 pg = some g

/-- Strengthened inductive invariant: additionally, every stored game's two
players map back to it (no orphaned games). -/
def registry_inv (games : List (String × ActiveGame))
    (pg : List (String × String)) : Prop :=
  (∀ p g, alookup p pg = some g →
    ∃ game, alookup g games = some game ∧ game.session.has_player p = true) ∧
  (∀ g game, alookup g games = some game →
    alookup game.session.player1 pg = some g ∧ alookup game.session.player2 pg = some g)

/-! ## Concrete scenario states used by the counterexamples and witnesses -/

/-- Driver for matchmaking joins that keeps the previous state on a modelled
panic; used to build concrete reachable states. -/
def mm_step (st : MatchmakingState) (u : String) (tx : Chan) (gid : String) :
    MatchmakingState :=
  match st.try_join u tx gid with
  | some (_, st1) => st1
  | none => st

/-- Empty matchmaking state. -/
def mmState0 : MatchmakingState := MatchmakingState.mk none [] [] []

/-- alice joins matchmaking (waits). -/
def mmStateA : MatchmakingState := mm_step mmState0 "alice" 1 "g1"

/-- bob joins: matched with alice into game `g1`. -/
def mmStateB : MatchmakingState := mm_step mmStateA "bob" 2 "g1"

/-- alice opens a second connection and joins again while still mapped (waits). -/
def mmStateC : MatchmakingState := mm_step mmStateB "alice" 4 "g2"

/-- charlie joins: matched with alice into game `g2`, remapping alice while
bob's mapping still points at `g1`. -/
def mmStateD : MatchmakingState := mm_step mmStateC "charlie" 3 "g2"

/-- A registry holding one game `g` between alice and bob on round 1. -/
def regRound1 : GameRegistry := GameRegistry.mk
  [("g", ActiveGame.mk ((GameSession.new "alice" "bob").start_round 1 (Word.mk "k1" "r1")) 1 2)]
  [("alice", "g"), ("bob", "g")]

/-- Round 1 times out; the scheduler draws the word `k2` and starts round 2. -/
def regAfterTimeout : GameRegistry :=
  (handle_round_timeout regRound1 "g" 1 (some (Word.mk "k2" "r2")) []).state

/-- Alice answers round 2 correctly after round 1 timed out. -/
def answerAfterTimeout : Option AnswerResult × GameRegistry :=
  GameRegistry.submit_answer regAfterTimeout "alice" "r2"

/-- Alice answers round 1 correctly (no prior timeout). -/
def answerRound1 : Option AnswerResult × GameRegistry :=
  GameRegistry.submit_answer regRound1 "alice" "r1"

/-- After alice's correct answer on round 1 the engine continues: winner status
`none` with reported round number 1, drawing word `k2` for round 2. -/
def regRound2 : GameRegistry :=
  (continue_or_end_game answerRound1.2 "g" none 1 (some (Word.mk "k2" "r2")) []).state

/-- Matchmaking state where alice occupies the lobby slot but her channel entry
was already removed by a concurrent disconnect. -/
def mmPanicState : MatchmakingState := MatchmakingState.mk (some "alice") [] [] []

/-- Decidable sufficient condition for `registry_inv` on concrete states:
check every stored pair instead of quantifying over all strings. -/
def registry_inv_check (games : List (String × ActiveGame))
    (pg : List (String × String)) : Bool :=
  pg.all (fun pr =>
    match alookup pr.2 games with
    | none => false
    | some game => game.session.has_player pr.1) &&
  games.all (fun gr =>
    (alookup gr.2.session.player1 pg == some gr.1) &&
    (alookup gr.2.session.player2 pg == some gr.1))

/-! ## Lemmas about the association-list registries -/

theorem alookup_mem {α : Type} {k : String} {v : α} :
    ∀ {l : List (String × α)}, alookup k l = some v → (k, v) ∈ l := by
  intro l
  induction l with
  | nil => intro h; simp [alookup] at h
  | cons hd tl ih =>
    intro h
    obtain ⟨k1, v1⟩ := hd
    by_cases hk : k1 = k
    · subst hk
      simp [alookup] at h
      subst h
      exact List.mem_cons_self _ _
    · simp [alookup, hk] at h
      exact List.mem_cons_of_mem _ (ih h)

theorem alookup_aerase_self {α : Type} (k : String) (l : List (String × α)) :
    alookup k (aerase k l) = none := by
  induction l with
  | nil => rfl
  | cons hd tl ih =>
    obtain ⟨k1, v1⟩ := hd
    by_cases h : k1 = k
    · simp [aerase, h, ih]
    · simp [aerase, alookup, h, ih]

theorem alookup_aerase_of_ne {α : Type} {k k1 : String} (h : k1 ≠ k)
    (l : List (String × α)) : alookup k (aerase k1 l) = alookup k l := by
  induction l with
  | nil => rfl
  | cons hd tl ih =>
    obtain ⟨k2, v1⟩ := hd
    by_cases h2 : k2 = k1
    · subst h2
      simp [aerase, alookup, h, ih]
    · simp [aerase, alookup, h2, ih]

theorem alookup_ainsert_self {α : Type} (k : String) (v : α) (l : List (String × α)) :
    alookup k (ainsert k v l) = some v := by
  simp [ainsert, alookup]

theorem alookup_ainsert_of_ne {α : Type} {k k1 : String} (h : k1 ≠ k) (v : α)
    (l : List (String × α)) : alookup k (ainsert k1 v l) = alookup k l := by
  simp [ainsert, alookup, h, alookup_aerase_of_ne h]

theorem alookup_aerase2 {α : Type} (k a b : String) (l : List (String × α)) :
    alookup k (aerase a (aerase b l)) =
      if a = k then none else if b = k then none else alookup k l := by
  rcases eq_or_ne a k with rfl | ha
  · simp [alookup_aerase_self]
  · rw [alookup_aerase_of_ne ha]
    rcases eq_or_ne b k with rfl | hb
    · simp [alookup_aerase_self, ha]
    · rw [alookup_aerase_of_ne hb]
      simp [ha, hb]

/-! ## Session state machine claims -/

/-- Claim C2: exactly-once round resolution.  With no active round the three
resolving operations return `none` and leave the session untouched; every
resolving call that does produce an outcome clears the round, so a second
resolution can only happen after a new `start_round`. -/
theorem round_resolution_exactly_once (s : GameSession) (p a q : String) :
    (s.current_round = none →
      s.submit_answer p a = (none, s) ∧ s.timeout_round = (none, s) ∧
        s.record_skip q = (none, s)) ∧
    ((s.submit_answer p a).1.isSome → (s.submit_answer p a).2.current_round = none) ∧
    ((s.timeout_round).1.isSome → (s.timeout_round).2.current_round = none) ∧
    (∀ o, (s.record_skip q).1 = some (SkipResult.BothSkipped o) →
      (s.record_skip q).2.current_round = none) := by
  refine ⟨fun h => ?_, ?_, ?_, ?_⟩
  · simp [GameSession.submit_answer, GameSession.timeout_round, GameSession.record_skip, h]
  · cases hr : s.current_round with
    | none => simp [GameSession.submit_answer, hr]
    | some round =>
      simp only [GameSession.submit_answer, hr]
      split <;> simp
  · cases hr : s.current_round with
    | none => simp [GameSession.timeout_round, hr]
    | some round => simp [GameSession.timeout_round, hr]
  · intro o
    cases hr : s.current_round with
    | none => simp [GameSession.record_skip, hr]
    | some round =>
      simp only [GameSession.record_skip, hr]
      split_ifs <;> simp

theorem round_resolution_exactly_once_witness :
    (GameSession.new "a" "b").submit_answer "a" "x" = (none, GameSession.new "a" "b") ∧
    (((GameSession.new "a" "b").start_round 1 (Word.mk "k" "r")).submit_answer
        "a" "r").2.current_round = none :=
  ⟨((round_resolution_exactly_once (GameSession.new "a" "b") "a" "x" "b").1 rfl).1,
   ((round_resolution_exactly_once
      ((GameSession.new "a" "b").start_round 1 (Word.mk "k" "r")) "a" "r" "b").2.1
     (by decide))⟩

/-- Claim C3 counterexample: starting a second round while one is active does
not keep the original round; the session's round becomes the new one. -/
theorem start_round_second_call_cex :
    (((GameSession.new "alice" "bob").start_round 1 (Word.mk "k1" "r1")).start_round 2
        (Word.mk "k2" "r2")).current_round ≠
      some (Round.mk 1 (Word.mk "k1" "r1") false false) ∧
    (((GameSession.new "alice" "bob").start_round 1 (Word.mk "k1" "r1")).start_round 2
        (Word.mk "k2" "r2")).current_round =
      some (Round.mk 2 (Word.mk "k2" "r2") false false) := by
  decide

/-- Claim C3 (amended): `start_round` called with a round already active does
not preserve it; it unconditionally replaces the current round with the fresh
round (new ordinal, new word, cleared skip flags). -/
theorem start_round_replaces_active_round (s : GameSession) (r : Round)
    (h : s.current_round = some r) (n : Nat) (w : Word) :
    (s.start_round n w).current_round = some (Round.mk n w false false) := by
  simp [GameSession.start_round]

theorem start_round_replaces_active_round_witness :
    (((GameSession.new "a" "b").start_round 1 (Word.mk "k1" "r1")).start_round 2
        (Word.mk "k2" "r2")).current_round =
      some (Round.mk 2 (Word.mk "k2" "r2") false false) :=
  start_round_replaces_active_round
    ((GameSession.new "a" "b").start_round 1 (Word.mk "k1" "r1"))
    (Round.mk 1 (Word.mk "k1" "r1") false false) (by decide) 2 (Word.mk "k2" "r2")

/-- Claim C9: `record_skip` returns `none` with no active round or for an
unknown player; otherwise it marks the caller's flag and reports
`AlreadySkipped` when that flag was already set, `WaitingForOpponent` when the
other player's flag is unset, and `BothSkipped` with a no-winner outcome while
clearing the round when both flags are set. -/
theorem record_skip_spec (s : GameSession) (p : String) (hne : s.player1 ≠ s.player2) :
    (s.current_round = none → s.record_skip p = (none, s)) ∧
    (∀ r, s.current_round = some r →
      (p ≠ s.player1 → p ≠ s.player2 → s.record_skip p = (none, s)) ∧
      (p = s.player1 →
        (r.player1_skipped = true → s.record_skip p =
          (some SkipResult.AlreadySkipped,
           { s with current_round := some ({ r with player1_skipped := true }) })) ∧
        (r.player1_skipped = false → r.player2_skipped = false → s.record_skip p =
          (some SkipResult.WaitingForOpponent,
           { s with current_round := some ({ r with player1_skipped := true }) })) ∧
        (r.player1_skipped = false → r.player2_skipped = true → s.record_skip p =
          (some (SkipResult.BothSkipped (RoundOutcome.mk none r.word.reading)),
           { s with current_round := none }))) ∧
      (p = s.player2 →
        (r.player2_skipped = true → s.record_skip p =
          (some SkipResult.AlreadySkipped,
           { s with current_round := some ({ r with player2_skipped := true }) })) ∧
        (r.player2_skipped = false → r.player1_skipped = false → s.record_skip p =
          (some SkipResult.WaitingForOpponent,
           { s with current_round := some ({ r with player2_skipped := true }) })) ∧
        (r.player2_skipped = false → r.player1_skipped = true → s.record_skip p =
          (some (SkipResult.BothSkipped (RoundOutcome.mk none r.word.reading)),
           { s with current_round := none })))) := by
  have h21 : s.player2 ≠ s.player1 := Ne.symm hne
  refine ⟨fun h => by simp [GameSession.record_skip, h], fun r hr => ⟨?_, ?_, ?_⟩⟩
  · intro h1 h2
    simp [GameSession.record_skip, hr, h1, h2]
  · intro hp
    subst hp
    refine ⟨fun hf => ?_, fun hf1 hf2 => ?_, fun hf1 hf2 => ?_⟩
    · simp [GameSession.record_skip, hr, hf]
    · simp [GameSession.record_skip, hr, hf1, hf2]
    · simp [GameSession.record_skip, hr, hf1, hf2]
  · intro hp
    subst hp
    refine ⟨fun hf => ?_, fun hf1 hf2 => ?_, fun hf1 hf2 => ?_⟩
    · simp [GameSession.record_skip, hr, h21, hf]
    · simp [GameSession.record_skip, hr, h21, hf1, hf2]
    · simp [GameSession.record_skip, hr, h21, hf1, hf2]

theorem record_skip_spec_witness :
    (GameSession.mk "alice" "bob" (0, 0)
        (some (Round.mk 1 (Word.mk "k" "r") true false))).record_skip "bob" =
      (some (SkipResult.BothSkipped (RoundOutcome.mk none "r")),
       GameSession.mk "alice" "bob" (0, 0) none) := by
  have h := record_skip_spec
    (GameSession.mk "alice" "bob" (0, 0) (some (Round.mk 1 (Word.mk "k" "r") true false)))
    "bob" (by decide)
  exact ((h.2 (Round.mk 1 (Word.mk "k" "r") true false) rfl).2.2 rfl).2.2 rfl rfl

/-- Claim C10: the round-lifecycle operations leave the score pair and the two
player identifiers unchanged; only `record_win` changes scores, incrementing
exactly the named player's score by one and ignoring unknown ids. -/
theorem lifecycle_frame (s : GameSession) (n : Nat) (w : Word) (p a q u : String) :
    ((s.start_round n w).scores = s.scores ∧ (s.start_round n w).player1 = s.player1 ∧
      (s.start_round n w).player2 = s.player2) ∧
    ((s.submit_answer p a).2.scores = s.scores ∧
      (s.submit_answer p a).2.player1 = s.player1 ∧
      (s.submit_answer p a).2.player2 = s.player2) ∧
    ((s.timeout_round).2.scores = s.scores ∧ (s.timeout_round).2.player1 = s.player1 ∧
      (s.timeout_round).2.player2 = s.player2) ∧
    ((s.record_skip q).2.scores = s.scores ∧ (s.record_skip q).2.player1 = s.player1 ∧
      (s.record_skip q).2.player2 = s.player2) ∧
    ((s.record_win u).player1 = s.player1 ∧ (s.record_win u).player2 = s.player2 ∧
      (s.record_win u).current_round = s.current_round ∧
      (u = s.player1 → (s.record_win u).scores = (s.scores.1 + 1, s.scores.2)) ∧
      (u ≠ s.player1 → u = s.player2 →
        (s.record_win u).scores = (s.scores.1, s.scores.2 + 1)) ∧
      (u ≠ s.player1 → u ≠ s.player2 → s.record_win u = s)) := by
  refine ⟨by simp [GameSession.start_round], ?_, ?_, ?_, ?_⟩
  · cases hr : s.current_round with
    | none => simp [GameSession.submit_answer, hr]
    | some round =>
      simp only [GameSession.submit_answer, hr]
      split <;> simp
  · cases hr : s.current_round with
    | none => simp [GameSession.timeout_round, hr]
    | some round => simp [GameSession.timeout_round, hr]
  · cases hr : s.current_round with
    | none => simp [GameSession.record_skip, hr]
    | some round =>
      simp only [GameSession.record_skip, hr]
      split_ifs <;> simp
  · refine ⟨?_, ?_, ?_, fun h1 => ?_, fun h1 h2 => ?_, fun h1 h2 => ?_⟩
    · simp only [GameSession.record_win]
      split_ifs <;> rfl
    · simp only [GameSession.record_win]
      split_ifs <;> rfl
    · simp only [GameSession.record_win]
      split_ifs <;> rfl
    · simp only [GameSession.record_win]
      rw [if_pos h1]
    · simp only [GameSession.record_win]
      rw [if_neg h1, if_pos h2]
    · simp only [GameSession.record_win]
      rw [if_neg h1, if_neg h2]

theorem lifecycle_frame_witness :
    ((GameSession.new "a" "b").record_win "a").scores = (1, 0) ∧
    ((GameSession.new "a" "b").record_win "c") = GameSession.new "a" "b" :=
  ⟨((lifecycle_frame (GameSession.new "a" "b") 1 (Word.mk "k" "r")
      "a" "x" "a" "a").2.2.2.2.2.2.2.1 rfl).trans (by decide),
   (lifecycle_frame (GameSession.new "a" "b") 1 (Word.mk "k" "r")
      "a" "x" "a" "c").2.2.2.2.2.2.2.2.2 (by decide) (by decide)⟩

/-! ## Registry and scheduler claims -/

/-- Claim C1 refuted on the source (code bug): `GameRegistry::submit_answer`
reports `round_number` as the post-win score sum, not the resolved round's
ordinal.  After round 1 resolves by timeout and round 2 starts, alice's
correct answer resolves round 2, yet the returned `round_number` is 1 — the
number the stale-timeout guard and the next `RoundStart` are then computed
from. -/
theorem submit_answer_misreports_round_number :
    (alookup "g" regAfterTimeout.games).map (fun g => g.session.current_round_number) =
      some (some 2) ∧
    answerAfterTimeout.1.map (fun res => res.round_number) = some 1 := by
  decide

/-- Claim C4: a fired timeout whose game is gone, or whose recorded round
number no longer matches the session's current round (in particular when no
round is active), changes no state, sends nothing and schedules nothing. -/
theorem stale_timeout_is_noop (st : GameRegistry) (game_id : String) (n : Nat)
    (next_word : Option Word) (readings : List String)
    (h : timeout_is_stale st game_id n = true) :
    handle_round_timeout st game_id n next_word readings = StepResult.mk st [] [] := by
  unfold timeout_is_stale at h
  unfold handle_round_timeout
  cases hg : alookup game_id st.games with
  | none => simp
  | some game =>
    rw [hg] at h
    have hne : game.session.current_round_number ≠ some n := by
      simpa using h
    simp [hne]

/-- Witness for C4, realising the spec's stale-timeout scenario: round 1 is
resolved by alice's correct answer and round 2 has started; firing the
round-1 timeout leaves the registry untouched, broadcasts nothing, schedules
nothing, and round 2 stays active. -/
theorem stale_timeout_is_noop_witness :
    handle_round_timeout regRound2 "g" 1 none [] = StepResult.mk regRound2 [] [] ∧
    (alookup "g" regRound2.games).map (fun g => g.session.current_round_number) =
      some (some 2) :=
  ⟨stale_timeout_is_noop regRound2 "g" 1 none [] (by decide), by decide⟩

/-- Claim C6: removing a player who is in a game returns the game and opponent
exactly once — the first call removes both players' mappings and the game
entry, and the second call on the resulting state returns `none` and changes
nothing; a missing opponent mapping is no obstacle (the embedding is total:
no lookup asserts presence). -/
theorem remove_player_idempotent (r : GameRegistry) (u gid : String)
    (game : ActiveGame) :
    (alookup u r.player_games = none → r.remove_player_from_game u = (none, r)) ∧
    (alookup u r.player_games = some gid → alookup gid r.games = some game →
      game.session.has_player u = true →
      ∃ opp, game.session.opponent_of u = some opp ∧
        (r.remove_player_from_game u).1 = some (DisconnectInfo.mk game opp) ∧
        alookup u (r.remove_player_from_game u).2.player_games = none ∧
        alookup opp (r.remove_player_from_game u).2.player_games = none ∧
        alookup gid (r.remove_player_from_game u).2.games = none ∧
        (r.remove_player_from_game u).2.remove_player_from_game u =
          (none, (r.remove_player_from_game u).2)) := by
  constructor
  · intro h
    simp [GameRegistry.remove_player_from_game, h]
  · intro hu hg hp
    have hopp : ∃ opp, game.session.opponent_of u = some opp := by
      simp only [GameSession.has_player, Bool.or_eq_true, beq_iff_eq] at hp
      by_cases h1 : u = game.session.player1
      · exact ⟨game.session.player2, by simp [GameSession.opponent_of, h1]⟩
      · have h2 : u = game.session.player2 := by
          rcases hp with hp | hp
          · exact absurd hp.symm h1
          · exact hp.symm
        exact ⟨game.session.player1, by simp [GameSession.opponent_of, h1, h2]⟩
    obtain ⟨opp, ho⟩ := hopp
    refine ⟨opp, ho, ?_⟩
    have hres : r.remove_player_from_game u =
        (some (DisconnectInfo.mk game opp),
         GameRegistry.mk (aerase gid r.games) (aerase opp (aerase u r.player_games))) := by
      simp [GameRegistry.remove_player_from_game, hu, hg, ho]
    rw [hres]
    refine ⟨rfl, ?_, ?_, ?_, ?_⟩
    · simp [alookup_aerase2]
    · simp [alookup_aerase_self]
    · exact alookup_aerase_self gid r.games
    · have hnone : alookup u (aerase opp (aerase u r.player_games)) = none := by
        simp [alookup_aerase2]
      simp [GameRegistry.remove_player_from_game, hnone]

theorem remove_player_idempotent_witness :
    (regRound1.remove_player_from_game "alice").1.isSome = true ∧
    ((regRound1.remove_player_from_game "alice").2.remove_player_from_game "alice").1 =
      none := by
  obtain ⟨opp, ho, h1, h2, h3, h4, h5⟩ :=
    (remove_player_idempotent regRound1 "alice" "g"
      (ActiveGame.mk ((GameSession.new "alice" "bob").start_round 1 (Word.mk "k1" "r1"))
        1 2)).2 (by decide) (by decide) (by decide)
  exact ⟨by rw [h1]; rfl, by rw [h5]⟩

/-- Claim C7 counterexample: `MatchmakingState::try_join` asserts presence of
the matched opponent's channel with
`.expect("opponent should have registered channel")`.  With alice occupying
the lobby slot but her channel entry already removed by a concurrent
disconnect, bob's join panics (modelled as the `none` result) instead of
degrading to an optional result or no-op. -/
theorem try_join_expect_panics_cex :
    MatchmakingState.try_join mmPanicState "bob" 2 "gX" = none := by
  decide

/-- Claim C7 (amended): every listed lookup that can race a concurrent removal
degrades gracefully — `broadcast_to_game`, `submit_answer` and
`remove_player_from_game` return empty/`none` without touching state when the
player or game entry is absent, and `handle_disconnect` stops after its local
cleanup — except the opponent-channel lookup in `try_join`, which panics
(modelled as `none`) when the matched opponent's channel entry is absent. -/
theorem missing_entry_lookups (r : GameRegistry) (mst : MatchmakingState)
    (u a gid : String) (msg : ServerMessage) (tx : Chan) :
    (alookup u r.player_games = none →
      r.broadcast_to_game u msg = [] ∧ r.submit_answer u a = (none, r) ∧
        r.remove_player_from_game u = (none, r)) ∧
    (∀ g, alookup u r.player_games = some g → alookup g r.games = none →
      r.broadcast_to_game u msg = [] ∧ r.submit_answer u a = (none, r) ∧
        (r.remove_player_from_game u).1 = none) ∧
    (alookup u mst.player_games = none →
      (mst.handle_disconnect u).2 = [] ∧
        (mst.handle_disconnect u).1.games = mst.games ∧
        (mst.handle_disconnect u).1.player_games = mst.player_games) ∧
    (∀ opp, mst.lobby = some opp →
      alookup opp (ainsert u tx mst.player_channels) = none →
      mst.try_join u tx gid = none) := by
  refine ⟨fun h => ?_, fun g hu hg => ?_, fun h => ?_, fun opp hl hc => ?_⟩
  · exact ⟨by simp [GameRegistry.broadcast_to_game, h],
      by simp [GameRegistry.submit_answer, h],
      by simp [GameRegistry.remove_player_from_game, h]⟩
  · exact ⟨by simp [GameRegistry.broadcast_to_game, hu, hg],
      by simp [GameRegistry.submit_answer, hu, hg],
      by simp [GameRegistry.remove_player_from_game, hu, hg]⟩
  · simp [MatchmakingState.handle_disconnect, h]
  · simp [MatchmakingState.try_join, Lobby.try_match, hl, hc]

theorem missing_entry_lookups_witness :
    (GameRegistry.mk [] []).submit_answer "alice" "x" = (none, GameRegistry.mk [] []) ∧
    MatchmakingState.try_join mmPanicState "carol" 7 "gY" = none := by
  refine ⟨((missing_entry_lookups (GameRegistry.mk [] []) mmPanicState
      "alice" "x" "gY" ServerMessage.WrongAnswer 7).1 (by decide)).2.1, ?_⟩
  exact (missing_entry_lookups (GameRegistry.mk [] []) mmPanicState
      "carol" "x" "gY" ServerMessage.WrongAnswer 7).2.2.2 "alice" (by decide) (by decide)

/-! ## Lobby claims -/

theorem lobby_run_cons2 (u v : String) (us : List String) :
    Lobby.run none (u :: v :: us) =
      MatchOutcome.Waiting :: MatchOutcome.Matched u :: Lobby.run none us := by
  simp [Lobby.run, Lobby.try_match]

theorem lobby_runState_cons2 (u v : String) (us : List String) :
    Lobby.runState none (u :: v :: us) = Lobby.runState none us := by
  simp [Lobby.runState, Lobby.try_match]

/-- Claim C5: starting from an empty slot, `try_match` outcomes alternate —
each odd-numbered call (even index) returns `Waiting`, each even-numbered call
returns `Matched` with exactly the previous caller as opponent, and the slot
is empty again before every odd-numbered call. -/
theorem lobby_fifo_alternates (us : List String) (i : Nat) (h : 2 * i < us.length) :
    (Lobby.run none us)[2 * i]? = some MatchOutcome.Waiting ∧
    (2 * i + 1 < us.length →
      (Lobby.run none us)[2 * i + 1]? = (us[2 * i]?).map MatchOutcome.Matched) ∧
    Lobby.runState none (us.take (2 * i)) = none := by
  induction i generalizing us with
  | zero =>
    match us with
    | [] => simp at h
    | [u] =>
      refine ⟨by simp [Lobby.run, Lobby.try_match], fun h2 => ?_, rfl⟩
      simp at h2
    | u :: v :: rest2 =>
      refine ⟨?_, fun h2 => ?_, rfl⟩
      · rw [show 2 * 0 = 0 by ring, lobby_run_cons2]
        rfl
      · rw [show 2 * 0 = 0 by ring, lobby_run_cons2]
        simp
  | succ i ih =>
    match us with
    | [] => simp at h
    | [u] =>
      simp only [List.length_singleton] at h
      omega
    | u :: v :: rest2 =>
      have h' : 2 * i < rest2.length := by
        simp only [List.length_cons] at h
        omega
      obtain ⟨k1, k2, k3⟩ := ih rest2 h'
      have e1 : 2 * (i + 1) = 2 * i + 1 + 1 := by ring
      refine ⟨?_, fun h2 => ?_, ?_⟩
      · rw [e1, lobby_run_cons2]
        simpa only [List.getElem?_cons_succ] using k1
      · have h2' : 2 * i + 1 < rest2.length := by
          rw [e1] at h2
          simp only [List.length_cons] at h2
          omega
        rw [e1, lobby_run_cons2]
        simpa only [List.getElem?_cons_succ] using k2 h2'
      · rw [e1, List.take_succ_cons, List.take_succ_cons, lobby_runState_cons2]
        exact k3

theorem lobby_fifo_alternates_witness :
    (Lobby.run none ["a", "b", "c"])[0]? = some MatchOutcome.Waiting ∧
    (Lobby.run none ["a", "b", "c"])[1]? = some (MatchOutcome.Matched "a") ∧
    Lobby.runState none (["a", "b", "c"].take 2) = none := by
  obtain ⟨k1, k2, -⟩ := lobby_fifo_alternates ["a", "b", "c"] 0 (by decide)
  obtain ⟨-, -, k3⟩ := lobby_fifo_alternates ["a", "b", "c"] 1 (by decide)
  exact ⟨k1, (k2 (by decide)).trans (by decide), k3⟩

/-! ## Registry consistency (claim C8) -/

theorem aerase_comm {α : Type} (a b : String) (l : List (String × α)) :
    aerase a (aerase b l) = aerase b (aerase a l) := by
  induction l with
  | nil => rfl
  | cons hd tl ih =>
    obtain ⟨k, v⟩ := hd
    by_cases hka : k = a
    · by_cases hkb : k = b
      · have hab : a = b := by rw [← hka, hkb]
        subst hab
        rfl
      · subst hka
        simp [aerase, hkb, ih]
    · by_cases hkb : k = b
      · subst hkb
        simp [aerase, hka, ih]
      · simp [aerase, hka, hkb, ih]

theorem registry_inv_of_check {games : List (String × ActiveGame)}
    {pg : List (String × String)} (h : registry_inv_check games pg = true) :
    registry_inv games pg := by
  simp only [registry_inv_check, Bool.and_eq_true, List.all_eq_true] at h
  obtain ⟨h1, h2⟩ := h
  constructor
  · intro p g hp
    have hcheck := h1 (p, g) (alookup_mem hp)
    cases hg : alookup g games with
    | none => rw [hg] at hcheck; cases hcheck
    | some game =>
      rw [hg] at hcheck
      exact ⟨game, rfl, hcheck⟩
  · intro g game hg
    have hcheck := h2 (g, game) (alookup_mem hg)
    simp only [Bool.and_eq_true, beq_iff_eq] at hcheck
    exact hcheck

theorem registry_inv_implies_consistent {games : List (String × ActiveGame)}
    {pg : List (String × String)} (hinv : registry_inv games pg) :
    registry_consistent games pg := by
  obtain ⟨inv1, inv2⟩ := hinv
  intro p g hp
  obtain ⟨game, hg, hhas⟩ := inv1 p g hp
  obtain ⟨hm1, hm2⟩ := inv2 g game hg
  exact ⟨game, hg, hhas, hm1, hm2⟩

theorem registry_inv_create {games : List (String × ActiveGame)}
    {pg : List (String × String)} (hinv : registry_inv games pg)
    (gid a b : String) (tx1 tx2 : Chan)
    (ha : alookup a pg = none) (hb : alookup b pg = none)
    (hg : alookup gid games = none) :
    registry_inv (ainsert gid (ActiveGame.mk (GameSession.new a b) tx1 tx2) games)
      (ainsert b gid (ainsert a gid pg)) := by
  obtain ⟨inv1, inv2⟩ := hinv
  constructor
  · intro p g hp
    by_cases hpb : b = p
    · subst hpb
      rw [alookup_ainsert_self] at hp
      obtain rfl := Option.some.inj hp
      exact ⟨_, alookup_ainsert_self _ _ _, by simp [GameSession.new, GameSession.has_player]⟩
    · rw [alookup_ainsert_of_ne hpb] at hp
      by_cases hpa : a = p
      · subst hpa
        rw [alookup_ainsert_self] at hp
        obtain rfl := Option.some.inj hp
        exact ⟨_, alookup_ainsert_self _ _ _, by simp [GameSession.new, GameSession.has_player]⟩
      · rw [alookup_ainsert_of_ne hpa] at hp
        obtain ⟨game, hgame, hhas⟩ := inv1 p g hp
        have hne : gid ≠ g := by
          rintro rfl
          rw [hg] at hgame
          exact Option.noConfusion hgame
        exact ⟨game, by rw [alookup_ainsert_of_ne hne]; exact hgame, hhas⟩
  · intro g game hgm
    by_cases hgg : gid = g
    · subst hgg
      rw [alookup_ainsert_self] at hgm
      obtain rfl := Option.some.inj hgm
      constructor
      · show alookup a (ainsert b gid (ainsert a gid pg)) = some gid
        by_cases hab : b = a
        · subst hab
          rw [alookup_ainsert_self]
        · rw [alookup_ainsert_of_ne hab, alookup_ainsert_self]
      · show alookup b (ainsert b gid (ainsert a gid pg)) = some gid
        rw [alookup_ainsert_self]
    · rw [alookup_ainsert_of_ne hgg] at hgm
      obtain ⟨hp1, hp2⟩ := inv2 g game hgm
      have key : ∀ q, alookup q pg = some g → b ≠ q ∧ a ≠ q := by
        intro q hq
        constructor
        · rintro rfl
          rw [hq] at hb
          exact Option.noConfusion hb
        · rintro rfl
          rw [hq] at ha
          exact Option.noConfusion ha
      obtain ⟨nb1, na1⟩ := key _ hp1
      obtain ⟨nb2, na2⟩ := key _ hp2
      constructor
      · rw [alookup_ainsert_of_ne nb1, alookup_ainsert_of_ne na1]
        exact hp1
      · rw [alookup_ainsert_of_ne nb2, alookup_ainsert_of_ne na2]
        exact hp2

theorem registry_inv_erase {games : List (String × ActiveGame)}
    {pg : List (String × String)} (hinv : registry_inv games pg)
    (gid : String) (game : ActiveGame) (hg : alookup gid games = some game) :
    registry_inv (aerase gid games)
      (aerase game.session.player2 (aerase game.session.player1 pg)) := by
  obtain ⟨inv1, inv2⟩ := hinv
  obtain ⟨hm1, hm2⟩ := inv2 gid game hg
  constructor
  · intro p g hp
    rw [alookup_aerase2] at hp
    have hp2p : game.session.player2 ≠ p := by
      intro e
      rw [if_pos e] at hp
      cases hp
    rw [if_neg hp2p] at hp
    have hp1p : game.session.player1 ≠ p := by
      intro e
      rw [if_pos e] at hp
      cases hp
    rw [if_neg hp1p] at hp
    obtain ⟨game', hgame', hhas⟩ := inv1 p g hp
    have hgg : gid ≠ g := by
      rintro rfl
      obtain rfl := Option.some.inj (hg.symm.trans hgame')
      simp only [GameSession.has_player, Bool.or_eq_true, beq_iff_eq] at hhas
      rcases hhas with e | e
      · exact hp1p e
      · exact hp2p e
    exact ⟨game', by rw [alookup_aerase_of_ne hgg]; exact hgame', hhas⟩
  · intro g game' hgm
    have hgg : gid ≠ g := by
      rintro rfl
      rw [alookup_aerase_self] at hgm
      cases hgm
    rw [alookup_aerase_of_ne hgg] at hgm
    obtain ⟨hq1, hq2⟩ := inv2 g game' hgm
    have key : ∀ q, alookup q pg = some g →
        game.session.player1 ≠ q ∧ game.session.player2 ≠ q := by
      intro q hq
      constructor
      · rintro rfl
        exact hgg (Option.some.inj (hm1.symm.trans hq))
      · rintro rfl
        exact hgg (Option.some.inj (hm2.symm.trans hq))
    obtain ⟨n11, n21⟩ := key _ hq1
    obtain ⟨n12, n22⟩ := key _ hq2
    constructor
    · rw [alookup_aerase2, if_neg n21, if_neg n11]
      exact hq1
    · rw [alookup_aerase2, if_neg n22, if_neg n12]
      exact hq2

theorem registry_inv_cleanup (r : GameRegistry) (gid : String)
    (hinv : registry_inv r.games r.player_games) :
    registry_inv (r.cleanup_game gid).games (r.cleanup_game gid).player_games := by
  cases hg : alookup gid r.games with
  | none =>
    have hres : r.cleanup_game gid = r := by
      simp [GameRegistry.cleanup_game, hg]
    rw [hres]
    exact hinv
  | some game =>
    have hres : r.cleanup_game gid = GameRegistry.mk (aerase gid r.games)
        (aerase game.session.player2 (aerase game.session.player1 r.player_games)) := by
      simp [GameRegistry.cleanup_game, hg]
    rw [hres]
    exact registry_inv_erase hinv gid game hg

theorem opponent_of_eq_some_of_has_player {s : GameSession} {u : String}
    (hhas : s.has_player u = true) :
    (u = s.player1 ∧ s.opponent_of u = some s.player2) ∨
    (u = s.player2 ∧ s.opponent_of u = some s.player1) := by
  simp only [GameSession.has_player, Bool.or_eq_true, beq_iff_eq] at hhas
  by_cases e1 : u = s.player1
  · exact Or.inl ⟨e1, by simp [GameSession.opponent_of, e1]⟩
  · have e2 : u = s.player2 := by
      rcases hhas with e | e
      · exact absurd e.symm e1
      · exact e.symm
    exact Or.inr ⟨e2, by simp [GameSession.opponent_of, e1, e2]⟩

theorem registry_inv_remove_player (r : GameRegistry) (u : String)
    (hinv : registry_inv r.games r.player_games) :
    registry_inv (r.remove_player_from_game u).2.games
      (r.remove_player_from_game u).2.player_games := by
  cases hu : alookup u r.player_games with
  | none =>
    have hres : r.remove_player_from_game u = (none, r) := by
      simp [GameRegistry.remove_player_from_game, hu]
    rw [hres]
    exact hinv
  | some gid =>
    obtain ⟨game, hg, hhas⟩ := hinv.1 u gid hu
    rcases opponent_of_eq_some_of_has_player hhas with ⟨e1, ho⟩ | ⟨e2, ho⟩
    · have hres : (r.remove_player_from_game u).2 = GameRegistry.mk (aerase gid r.games)
          (aerase game.session.player2 (aerase u r.player_games)) := by
        simp [GameRegistry.remove_player_from_game, hu, hg, ho]
      rw [hres]
      rw [e1]
      exact registry_inv_erase hinv gid game hg
    · have hres : (r.remove_player_from_game u).2 = GameRegistry.mk (aerase gid r.games)
          (aerase game.session.player1 (aerase u r.player_games)) := by
        simp [GameRegistry.remove_player_from_game, hu, hg, ho]
      rw [hres]
      rw [e2, aerase_comm]
      exact registry_inv_erase hinv gid game hg

theorem registry_inv_handle_disconnect (st : MatchmakingState) (u : String)
    (hinv : registry_inv st.games st.player_games) :
    registry_inv (st.handle_disconnect u).1.games
      (st.handle_disconnect u).1.player_games := by
  cases hu : alookup u st.player_games with
  | none =>
    have h1 : (st.handle_disconnect u).1.games = st.games := by
      simp [MatchmakingState.handle_disconnect, hu]
    have h2 : (st.handle_disconnect u).1.player_games = st.player_games := by
      simp [MatchmakingState.handle_disconnect, hu]
    rw [h1, h2]
    exact hinv
  | some gid =>
    obtain ⟨game, hg, hhas⟩ := hinv.1 u gid hu
    rcases opponent_of_eq_some_of_has_player hhas with ⟨e1, ho⟩ | ⟨e2, ho⟩
    · have h1 : (st.handle_disconnect u).1.games = aerase gid st.games := by
        cases hc : alookup game.session.player2 (aerase u st.player_channels) <;>
          simp [MatchmakingState.handle_disconnect, hu, hg, ho, hc]
      have h2 : (st.handle_disconnect u).1.player_games =
          aerase game.session.player2 (aerase u st.player_games) := by
        cases hc : alookup game.session.player2 (aerase u st.player_channels) <;>
          simp [MatchmakingState.handle_disconnect, hu, hg, ho, hc]
      rw [h1, h2, e1]
      exact registry_inv_erase hinv gid game hg
    · have h1 : (st.handle_disconnect u).1.games = aerase gid st.games := by
        cases hc : alookup game.session.player1 (aerase u st.player_channels) <;>
          simp [MatchmakingState.handle_disconnect, hu, hg, ho, hc]
      have h2 : (st.handle_disconnect u).1.player_games =
          aerase game.session.player1 (aerase u st.player_games) := by
        cases hc : alookup game.session.player1 (aerase u st.player_channels) <;>
          simp [MatchmakingState.handle_disconnect, hu, hg, ho, hc]
      rw [h1, h2, e2, aerase_comm]
      exact registry_inv_erase hinv gid game hg

theorem registry_inv_try_join (st : MatchmakingState) (u gid : String) (tx : Chan)
    (hinv : registry_inv st.games st.player_games)
    (hu : alookup u st.player_games = none)
    (hopp : ∀ opp, st.lobby = some opp → alookup opp st.player_games = none)
    (hgid : alookup gid st.games = none) :
    ∀ res st1, st.try_join u tx gid = some (res, st1) →
      registry_inv st1.games st1.player_games := by
  intro res st1 h
  cases hl : st.lobby with
  | none =>
    have hres : st.try_join u tx gid = some (JoinResult.Waiting,
        MatchmakingState.mk (some u) (ainsert u tx st.player_channels)
          st.games st.player_games) := by
      simp [MatchmakingState.try_join, Lobby.try_match, hl]
    rw [hres, Option.some.injEq, Prod.mk.injEq] at h
    obtain ⟨-, rfl⟩ := h
    exact hinv
  | some opp =>
    have ho := hopp opp hl
    cases hc : alookup opp (ainsert u tx st.player_channels) with
    | none =>
      have hres : st.try_join u tx gid = none := by
        simp [MatchmakingState.try_join, Lobby.try_match, hl, hc]
      rw [hres] at h
      cases h
    | some otx =>
      have hres : st.try_join u tx gid = some (JoinResult.Matched opp otx gid,
          MatchmakingState.mk none (ainsert u tx st.player_channels)
            (ainsert gid (ActiveGame.mk (GameSession.new opp u) otx tx) st.games)
            (ainsert u gid (ainsert opp gid st.player_games))) := by
        simp [MatchmakingState.try_join, Lobby.try_match, hl, hc]
      rw [hres, Option.some.injEq, Prod.mk.injEq] at h
      obtain ⟨-, rfl⟩ := h
      exact registry_inv_create hinv gid opp u otx tx ho hu hgid

theorem registry_inv_join_game (est : EphemeralState) (gid pn : String) (tx : Chan)
    (hinv : registry_inv est.registry.games est.registry.player_games)
    (hfresh : alookup gid est.registry.games = none)
    (hnames : ∀ pending, alookup gid est.pending_games = some pending →
      alookup pending.host.display_name est.registry.player_games = none ∧
      alookup (if pn = pending.host.display_name then pn ++ " (2)" else pn)
        est.registry.player_games = none) :
    registry_inv (est.join_game gid pn tx).2.registry.games
      (est.join_game gid pn tx).2.registry.player_games := by
  cases hp : alookup gid est.pending_games with
  | none =>
    have hres : est.join_game gid pn tx = (none, est) := by
      simp [EphemeralState.join_game, hp]
    rw [hres]
    exact hinv
  | some pending =>
    obtain ⟨hhost, hguest⟩ := hnames pending hp
    have hres : (est.join_game gid pn tx).2 = EphemeralState.mk
        (GameRegistry.mk
          (ainsert gid (ActiveGame.mk (GameSession.new pending.host.display_name
              (if pn = pending.host.display_name then pn ++ " (2)" else pn))
            pending.host_tx tx) est.registry.games)
          (ainsert (if pn = pending.host.display_name then pn ++ " (2)" else pn) gid
            (ainsert pending.host.display_name gid est.registry.player_games)))
        (aerase gid est.pending_games) := by
      simp [EphemeralState.join_game, hp]
    rw [hres]
    exact registry_inv_create hinv gid pending.host.display_name _
      pending.host_tx tx hhost hguest hfresh

/-- Claim C8 counterexample: the consistency invariant is not maintained under
every reachable sequence of the listed operations.  Reached by the source
operations alone: alice and bob match into `g1`; alice joins matchmaking again
on a second connection while still mapped and is matched with charlie into
`g2`.  Now `(bob, g1)` is in `player_games` and `g1`'s session contains
alice, but alice's mapping points at `g2`, violating the "both of that
session's players map to the same game id" clause. -/
theorem registry_consistency_cex :
    alookup "bob" mmStateD.player_games = some "g1" ∧
    (alookup "g1" mmStateD.games).map (fun g => g.session.player1) = some "alice" ∧
    alookup "alice" mmStateD.player_games = some "g2" ∧
    ("g2" = "g1" → False) ∧
    (registry_consistent mmStateD.games mmStateD.player_games → False) := by
  refine ⟨by decide, by decide, by decide, by decide, fun h => ?_⟩
  obtain ⟨game, hg, -, h1, -⟩ := h "bob" "g1" (by decide)
  have hv : alookup "g1" mmStateD.games =
      some (ActiveGame.mk (GameSession.new "alice" "bob") 1 2) := by decide
  obtain rfl := Option.some.inj (hv.symm.trans hg)
  exact absurd h1 (by decide)

/-- Claim C8 (amended): the two registry maps stay mutually consistent under
`cleanup_game`, `remove_player_from_game` and disconnect handling
unconditionally, and under game creation (matchmaking match or ephemeral
join) provided neither player is already mapped in `player_games` and the new
game id is fresh; the strengthened invariant `registry_inv` is preserved by
each operation and implies the spec's consistency property.  Without the
proviso the invariant can break (see the counterexample: a player who
re-enters matchmaking while still mapped orphans their old game's entry). -/
theorem registry_maps_stay_consistent (r : GameRegistry) (mst : MatchmakingState)
    (est : EphemeralState) (gid u pn : String) (tx : Chan) :
    (registry_inv r.games r.player_games → registry_consistent r.games r.player_games) ∧
    (registry_inv r.games r.player_games →
      registry_inv (r.cleanup_game gid).games (r.cleanup_game gid).player_games) ∧
    (registry_inv r.games r.player_games →
      registry_inv (r.remove_player_from_game u).2.games
        (r.remove_player_from_game u).2.player_games) ∧
    (registry_inv mst.games mst.player_games →
      registry_inv (mst.handle_disconnect u).1.games
        (mst.handle_disconnect u).1.player_games) ∧
    (registry_inv mst.games mst.player_games →
      alookup u mst.player_games = none →
      (∀ opp, mst.lobby = some opp → alookup opp mst.player_games = none) →
      alookup gid mst.games = none →
      ∀ res st1, mst.try_join u tx gid = some (res, st1) →
        registry_inv st1.games st1.player_games) ∧
    (registry_inv est.registry.games est.registry.player_games →
      alookup gid est.registry.games = none →
      (∀ pending, alookup gid est.pending_games = some pending →
        alookup pending.host.display_name est.registry.player_games = none ∧
        alookup (if pn = pending.host.display_name then pn ++ " (2)" else pn)
          est.registry.player_games = none) →
      registry_inv (est.join_game gid pn tx).2.registry.games
        (est.join_game gid pn tx).2.registry.player_games) :=
  ⟨fun h => registry_inv_implies_consistent h,
   fun h => registry_inv_cleanup r gid h,
   fun h => registry_inv_remove_player r u h,
   fun h => registry_inv_handle_disconnect mst u h,
   fun h h1 h2 h3 => registry_inv_try_join mst u gid tx h h1 h2 h3,
   fun h h1 h2 => registry_inv_join_game est gid pn tx h h1 h2⟩

theorem registry_maps_stay_consistent_witness :
    registry_consistent regRound1.games regRound1.player_games ∧
    registry_inv (regRound1.remove_player_from_game "alice").2.games
      (regRound1.remove_player_from_game "alice").2.player_games := by
  have h := registry_maps_stay_consistent regRound1 mmState0
    (EphemeralState.mk (GameRegistry.mk [] []) []) "g" "alice" "n" 0
  have hinv : registry_inv regRound1.games regRound1.player_games :=
    registry_inv_of_check (by decide)
  exact ⟨h.1 hinv, h.2.2.1 hinv⟩
